import Mathlib

/-!
Shallow embedding of the pomodoro user/auth subsystem: phone
normalization (pomodoro/core/utils/normalize.py), credential login
(pomodoro/auth/services/auth.py), the password recovery flow over the
redis cache (pomodoro/user/services/user_service.py,
pomodoro/user/repositories/cache_user.py), OAuth profile enrichment,
password schema validation (pomodoro/user/schemas/user.py,
pomodoro/core/security/password_policy.py) and profile updates
(pomodoro/user/repositories/user.py).

Python exceptions are modeled by Except; mutable stores (database rows,
redis keys, the outgoing mailbox) by explicit state values threaded
through the functions. Argon2 hashing and verification are modeled by
abstract function parameters; JWT minting by an opaque function of the
subject claim. Regex character classes are modeled by their ASCII
semantics, which the inputs of the system (phones, passwords) use.
-/

namespace Pomodoro

/-- Mirror of AppException (core/exceptions/base.py): every custom
application error carries an HTTP status code, a categorized error type
and a human readable detail. -/
structure AppError where
  status_code : Nat
  error_type : String
  detail : String
deriving Repr, DecidableEq

/-- PasswordVerifyError (auth/exceptions/password_incorrect.py):
status 401, error_type InvalidCredentials, with a generic default
detail when none is supplied. -/
def passwordVerifyError (detail : Option String) : AppError :=
  { status_code := 401, error_type := "InvalidCredentials",
    detail := detail.getD "Неверный логин или пароль." }

/-- InvalidResetToken (core/exceptions/invalid_reset_token.py):
status 403, error_type InvalidResetToken, inheriting the AppException
default detail. -/
def invalidResetToken : AppError :=
  { status_code := 403, error_type := "InvalidResetToken",
    detail := "An application error occurred." }

/-- Python exceptions that escape the service layer: AttributeError and
ValueError builtins, the plain-Exception UserNotFoundError
(user/exceptions/user_not_found.py), ObjectNotFoundError raised by the
CRUD service, and AppException subclasses. -/
inductive PyExc where
  | attributeError (msg : String)
  | valueError (msg : String)
  | userNotFound (phone : String)
  | objectNotFound (object_id : Nat)
  | app (e : AppError)
deriving Repr, DecidableEq

/-! ## normalize_phone (core/utils/normalize.py) -/

/-- Python str.strip(): drop whitespace from both ends. -/
def pyStrip (s : List Char) : List Char :=
  ((s.dropWhile Char.isWhitespace).reverse.dropWhile Char.isWhitespace).reverse

/-- re.sub of [^\d+] with the empty string: keep digits and plus signs. -/
def keepDigitsAndPlus (s : List Char) : List Char :=
  s.filter (fun c => c.isDigit || c == '+')

/-- re.sub of \D with the empty string: keep digits only. -/
def keepDigits (s : List Char) : List Char :=
  s.filter (fun c => c.isDigit)

/-- normalize_phone from core/utils/normalize.py, line for line.
The branch for a leading plus checks cleaned.startswith with the
country digit while cleaned still carries the plus sign itself, and
removeprefix strips that country digit when present. The regex search
for an 11-digit tail anchored at the end succeeds exactly when the
eleventh-from-last digit is the country code or trunk prefix; the
10-digit fallback search always succeeds on an all-digit string of
length at least ten. -/
def normalize_phone (phone : String) : Option String :=
  if phone.data.isEmpty then none
  else
    let original_first_char : Option Char := (pyStrip phone.data).head?
    let cleaned : List Char := keepDigitsAndPlus phone.data
    let digitsOpt : Option (List Char) :=
      if original_first_char = some '+' then
        if cleaned.head? = some '7' then some (cleaned.drop 1) else none
      else some cleaned
    match digitsOpt with
    | none => none
    | some d0 =>
      let digits := keepDigits d0
      if digits.isEmpty then none
      else
        let n := digits.length
        if n = 11 then
          if digits.head? = some '7' then some (String.mk ('+' :: digits))
          else if digits.head? = some '8' then
            some (String.mk ('+' :: '7' :: digits.drop 1))
          else none
        else if n = 10 then some (String.mk ('+' :: '7' :: digits))
        else if 11 < n then
          let last11 := digits.drop (n - 11)
          if last11.head? = some '7' then some (String.mk ('+' :: last11))
          else if last11.head? = some '8' then
            some (String.mk ('+' :: '7' :: last11.drop 1))
          else some (String.mk ('+' :: '7' :: digits.drop (n - 10)))
        else none

/-! ## User store (user/models/users.py, user/repositories/user.py) -/

/-- UserProfile row (user/models/users.py); the birthday date column is
modeled as a string, which the claims never inspect. -/
structure UserProfile where
  id : Nat
  phone : Option String
  hashed_password : Option String
  is_active : Bool
  phone_verified : Bool
  email : Option String
  email_verified : Bool
  first_name : Option String
  last_name : Option String
  patronymic : Option String
  birthday : Option String
  about : Option String
deriving Repr, DecidableEq

/-- UserRepository.get_by_phone: select the first row whose phone
column equals the argument. -/
def get_by_phone (store : List UserProfile) (user_phone : String) :
    Option UserProfile :=
  store.find? (fun u => u.phone == some user_phone)

/-- JWT minting (auth/security.py create_access_token) modeled opaquely
as a function of the subject claim. -/
def create_access_token (sub : String) : String :=
  String.append "jwt:" sub

/-- AuthService.login (auth/services/auth.py). The source reads
user_or_none.hashed_password before its None check, so a missing user
raises AttributeError and the UserNotFoundError branch guarded by the
None test is unreachable; the embedding keeps the remaining checks in
source order. The argon2 verifier is an abstract parameter. -/
def login (store : List UserProfile) (verify : String → String → Bool)
    (phone password : String) : Except PyExc String :=
  match get_by_phone store phone with
  | none =>
      Except.error (PyExc.attributeError
        "NoneType object has no attribute hashed_password")
  | some user =>
      if user.hashed_password = none then
        Except.error (PyExc.app
          (passwordVerifyError (some "Этот аккаунт создан через OAuth.")))
      else if !user.is_active then
        Except.error (PyExc.userNotFound phone)
      else if !(verify password (user.hashed_password.getD "")) then
        Except.error (PyExc.app (passwordVerifyError none))
      else
        Except.ok (create_access_token (toString user.id))

/-! ## Redis cache (user/repositories/cache_user.py)

Every stored entry records the value and the expiry (the ex argument of
redis set). The three key prefixes password_reset:session:,
password_reset:code: and password_reset:token: never overlap, so the
keyspace splits into three independent maps. -/

/-- One redis entry: the stored string value and its TTL in seconds. -/
structure CacheEntry where
  value : String
  ttl : Nat
deriving Repr, DecidableEq

/-- The recovery keyspace: sessions map recovery_id to str(user_id),
codes map recovery_id to the hashed code, tokens map reset_token to
str(user_id). -/
structure CacheState where
  sessions : List (String × CacheEntry)
  codes : List (String × CacheEntry)
  tokens : List (String × CacheEntry)
deriving Repr, DecidableEq

/-- redis SET with expiry: overwrite any previous entry under the key. -/
def cacheSet (l : List (String × CacheEntry)) (key value : String)
    (ex : Nat) : List (String × CacheEntry) :=
  (key, { value := value, ttl := ex }) :: l.filter (fun kv => kv.1 != key)

/-- redis GET: the stored value, if the key is present. -/
def cacheGet (l : List (String × CacheEntry)) (key : String) :
    Option String :=
  (l.find? (fun kv => kv.1 == key)).map (fun kv => kv.2.value)

/-- The TTL a key was stored with, if the key is present. -/
def cacheGetTtl (l : List (String × CacheEntry)) (key : String) :
    Option Nat :=
  (l.find? (fun kv => kv.1 == key)).map (fun kv => kv.2.ttl)

/-- redis DELETE. -/
def cacheDelete (l : List (String × CacheEntry)) (key : String) :
    List (String × CacheEntry) :=
  l.filter (fun kv => kv.1 != key)

/-- Python int() applied to a decimal numeral string, the only shape of
value the repository ever stores for user ids. -/
def pyIntOfString (s : String) : Option Nat :=
  if s.data ≠ [] ∧ s.data.all Char.isDigit then
    some (s.data.foldl (fun n c => n * 10 + (c.toNat - 48)) 0)
  else none

/-- settings.RECOVERY_PASSWORD_CODE_LIFESPAN (core/settings.py),
in seconds. -/
def RECOVERY_PASSWORD_CODE_LIFESPAN : Nat := 180

/-- UserCacheRepository.set_recovery_session: bind recovery_id to
str(user_id) with the shared lifespan. -/
def set_recovery_session (c : CacheState) (recovery_id : String)
    (user_id : Nat) : CacheState :=
  { c with sessions := (cacheSet c.sessions recovery_id (toString user_id)
      RECOVERY_PASSWORD_CODE_LIFESPAN) }

/-- UserCacheRepository.get_recovery_session_user: int(value) of the
stored entry; every stored value is a decimal numeral. -/
def get_recovery_session_user (c : CacheState) (recovery_id : String) :
    Option Nat :=
  (cacheGet c.sessions recovery_id).bind (fun v => pyIntOfString v)

/-- UserCacheRepository.delete_recovery_session. -/
def delete_recovery_session (c : CacheState) (recovery_id : String) :
    CacheState :=
  { c with sessions := cacheDelete c.sessions recovery_id }

/-- UserCacheRepository.set_recovery_password_code with the shared
lifespan. -/
def set_recovery_password_code (c : CacheState)
    (recovery_id hashed_recovery_code : String) : CacheState :=
  { c with codes := (cacheSet c.codes recovery_id hashed_recovery_code
      RECOVERY_PASSWORD_CODE_LIFESPAN) }

/-- UserCacheRepository.get_recovery_password_code. -/
def get_recovery_password_code (c : CacheState) (recovery_id : String) :
    Option String :=
  cacheGet c.codes recovery_id

/-- UserCacheRepository.delete_recovery_password_code. -/
def delete_recovery_password_code (c : CacheState)
    (recovery_id : String) : CacheState :=
  { c with codes := cacheDelete c.codes recovery_id }

/-- UserCacheRepository.set_recovery_token with the shared lifespan. -/
def set_recovery_token (c : CacheState) (reset_token : String)
    (user_id : Nat) : CacheState :=
  { c with tokens := (cacheSet c.tokens reset_token (toString user_id)
      RECOVERY_PASSWORD_CODE_LIFESPAN) }

/-- UserCacheRepository.get_recovery_token. -/
def get_recovery_token (c : CacheState) (reset_token : String) :
    Option Nat :=
  (cacheGet c.tokens reset_token).bind (fun v => pyIntOfString v)

/-- UserCacheRepository.delete_recovery_token. -/
def delete_recovery_token (c : CacheState) (reset_token : String) :
    CacheState :=
  { c with tokens := cacheDelete c.tokens reset_token }

/-! ## Password recovery services (user/services/user_service.py) -/

/-- The one generic error of check_recovery_code: a
PasswordVerifyError whose detail never distinguishes expiry from a
wrong code. -/
def invalidOrExpiredCodeError : AppError :=
  passwordVerifyError
    (some "Verification code is invalid or expired. Please try again.")

/-- One email handed to EmailService.send_password_recovery_email. -/
structure SentEmail where
  recipient_email : Option String
  recovery_code : Nat
deriving Repr, DecidableEq

/-- UserProfileService.send_recovery_code_via_email. The uuid4 hex
recovery_id and the six-digit recovery_code drawn by secrets.randbelow
are the internally generated randomness, passed as parameters; argon2
hashing is the abstract hash parameter. Returns the recovery_id
together with the cache and outbox after the call. -/
def send_recovery_code_via_email (store : List UserProfile)
    (hash : String → String) (recovery_id : String) (recovery_code : Nat)
    (c : CacheState) (outbox : List SentEmail) (user_phone : String) :
    String × CacheState × List SentEmail :=
  let hashed_code := hash (toString recovery_code)
  match get_by_phone store user_phone with
  | none => (recovery_id, c, outbox)
  | some user =>
      let c1 := set_recovery_session c recovery_id user.id
      let c2 := set_recovery_password_code c1 recovery_id hashed_code
      (recovery_id, c2,
        outbox ++ [{ recipient_email := user.email,
                     recovery_code := recovery_code }])

/-- UserProfileService.check_recovery_code. The fresh uuid4 hex reset
token is the fresh_token parameter; argon2 verification is the abstract
verify parameter. On success returns the reset token and the cache
after deleting the code and session entries and storing the token. -/
def check_recovery_code (c : CacheState)
    (verify : String → String → Bool) (fresh_token : String)
    (recovery_id : String) (input_code : Nat) :
    Except AppError (String × CacheState) :=
  let hashed_code := get_recovery_password_code c recovery_id
  let user_id := get_recovery_session_user c recovery_id
  match hashed_code, user_id with
  | none, _ => Except.error invalidOrExpiredCodeError
  | some _, none => Except.error invalidOrExpiredCodeError
  | some hc, some uid =>
      if !(verify (toString input_code) hc) then
        Except.error invalidOrExpiredCodeError
      else
        let c1 := delete_recovery_password_code c recovery_id
        let c2 := delete_recovery_session c1 recovery_id
        let c3 := set_recovery_token c2 fresh_token uid
        Except.ok (fresh_token, c3)

/-- The repository half of UserProfileService._update_user_password:
CRUDRepository.update_object applied with UpdatePasswordORMSchema, whose
only field is hashed_password, so the row update touches nothing else;
None when no row has the id. -/
def db_update_hashed_password (db : List UserProfile) (object_id : Nat)
    (hashed_password : String) : Option (List UserProfile) :=
  match db.find? (fun u => u.id == object_id) with
  | none => none
  | some _ =>
      some (db.map (fun u =>
        if u.id == object_id then
          { u with hashed_password := some hashed_password }
        else u))

/-- UserProfileService._update_user_password composed with
CRUDService.update_object, which raises ObjectNotFoundError when the
repository returns None. -/
def update_user_password (db : List UserProfile) (user_id : Nat)
    (hash : String → String) (plain_password : String) :
    Except PyExc (List UserProfile) :=
  match db_update_hashed_password db user_id (hash plain_password) with
  | none => Except.error (PyExc.objectNotFound user_id)
  | some db2 => Except.ok db2

/-- UserProfileService.reset_password_via_token. Returns the outcome
together with the cache and database after the call: an absent token
leaves both untouched; on the success path the token is deleted first
and the password update runs second, so the token is gone even if the
update then fails. -/
def reset_password_via_token (c : CacheState) (db : List UserProfile)
    (hash : String → String) (token new_password : String) :
    Except PyExc Unit × CacheState × List UserProfile :=
  match get_recovery_token c token with
  | none => (Except.error (PyExc.app invalidResetToken), c, db)
  | some user_id =>
      let c1 := delete_recovery_token c token
      match update_user_password db user_id hash new_password with
      | Except.error e => (Except.error e, c1, db)
      | Except.ok db2 => (Except.ok (), c1, db2)

/-! ## OAuth profile enrichment (auth/services/auth.py) -/

/-- The provider-side values of PROFILE_FIELDS_TO_ENRICH, as mapped
from the Yandex payload; the birthday date is modeled as a string. -/
structure OAuthProfileData where
  first_name : Option String
  last_name : Option String
  birthday : Option String
  email : Option String
deriving Repr, DecidableEq

/-- The membership test provider_value not in (None, empty string) from
the enrichment loop of AuthService.get_yandex_auth. -/
def providerHasData (provider_value : Option String) : Bool :=
  !(provider_value == none || provider_value == some "")

/-- One iteration of the enrichment loop: the field enters update_data
exactly when the current value is None and the provider value is
neither None nor empty; otherwise the current value stays. -/
def enrichField (current_value provider_value : Option String) :
    Option String :=
  if current_value = none ∧ providerHasData provider_value = true then
    provider_value
  else current_value

/-- The enrichment step of AuthService.get_yandex_auth for a local user
matched by phone: the loop over PROFILE_FIELDS_TO_ENRICH followed by
UserRepository.update_object, which also resets email_verified to False
whenever the email key entered update_data. -/
def enrich_profile (user : UserProfile) (user_schema : OAuthProfileData) :
    UserProfile :=
  { user with
      first_name := enrichField user.first_name user_schema.first_name,
      last_name := enrichField user.last_name user_schema.last_name,
      birthday := enrichField user.birthday user_schema.birthday,
      email := enrichField user.email user_schema.email,
      email_verified :=
        if user.email = none ∧ providerHasData user_schema.email = true
        then false else user.email_verified }

/-! ## Password policy and schemas (core/security/password_policy.py,
core/validators/password.py, user/schemas/user.py) -/

/-- settings.MIN_PASSWORD_LENGTH (core/settings.py). -/
def MIN_PASSWORD_LENGTH : Nat := 8

/-- The regex class of characters counted as special by
PasswordPolicy: neither word characters (alphanumerics or underscore)
nor whitespace. -/
def isSpecialChar (c : Char) : Bool :=
  !(c.isAlphanum || c == '_' || c.isWhitespace)

/-- PasswordPolicy.validate: the four character-class searches in
source order, each failure a PasswordVerifyError naming the missing
class. The policy contains no length rule. -/
def PasswordPolicy_validate (value : String) : Except AppError Unit :=
  if !(value.data.any Char.isLower) then
    Except.error (passwordVerifyError
      (some "Password must contain at least one lowercase letter"))
  else if !(value.data.any Char.isUpper) then
    Except.error (passwordVerifyError
      (some "Password must contain at least one uppercase letter"))
  else if !(value.data.any Char.isDigit) then
    Except.error (passwordVerifyError
      (some "Password must contain at least one digit"))
  else if !(value.data.any isSpecialChar) then
    Except.error (passwordVerifyError
      (some "Password must contain at least one special character"))
  else Except.ok ()

/-- Validation of SetPasswordSchema, whose new_password field carries
only the password_field_validator (no length constraint on the field). -/
def SetPasswordSchema_validate (new_password : String) :
    Except AppError Unit :=
  PasswordPolicy_validate new_password

/-- Validation of ChangePasswordSchema: the field validator on
new_password runs first, the check_passwords_differ model validator
second, raising PasswordVerifyError when the passwords coincide. -/
def ChangePasswordSchema_validate (old_password new_password : String) :
    Except AppError Unit :=
  match SetPasswordSchema_validate new_password with
  | Except.error e => Except.error e
  | Except.ok _ =>
      if new_password = old_password then
        Except.error (passwordVerifyError
          (some "New password must be different from the old one"))
      else Except.ok ()

/-- Errors raised while a schema is built: pydantic field-constraint
violations surface as a 422 ValidationError, while exceptions thrown by
custom validators (here always AppException subclasses) propagate
unchanged. -/
inductive SchemaError where
  | validation (msg : String)
  | app (e : AppError)
deriving Repr, DecidableEq

/-- Validation of the password field of CreateUserProfileSchema: the
Field min_length constraint runs before the password_field_validator,
and None is accepted untouched. -/
def CreateUserProfileSchema_validate_password (password : Option String) :
    Except SchemaError Unit :=
  match password with
  | none => Except.ok ()
  | some p =>
      if p.length < MIN_PASSWORD_LENGTH then
        Except.error (SchemaError.validation
          "String should have at least 8 characters")
      else
        match PasswordPolicy_validate p with
        | Except.error e => Except.error (SchemaError.app e)
        | Except.ok _ => Except.ok ()

/-- UserProfileService.change_password, entered through schema
construction: an invalid ChangePasswordSchema never reaches the
service. The service loads the user (ObjectNotFoundError when absent),
verifies the old password against the stored hash and only then hashes
and persists the new one. Returns the outcome with the database after
the call. -/
def change_password (db : List UserProfile)
    (verify : String → String → Bool) (hash : String → String)
    (current_user_id : Nat) (old_password new_password : String) :
    Except PyExc Unit × List UserProfile :=
  match ChangePasswordSchema_validate old_password new_password with
  | Except.error e => (Except.error (PyExc.app e), db)
  | Except.ok _ =>
      match db.find? (fun u => u.id == current_user_id) with
      | none => (Except.error (PyExc.objectNotFound current_user_id), db)
      | some current_user =>
          if !(verify old_password (current_user.hashed_password.getD ""))
          then
            (Except.error (PyExc.app (passwordVerifyError
              (some "Current password is incorrect."))), db)
          else
            match update_user_password db current_user_id hash
                new_password with
            | Except.error e => (Except.error e, db)
            | Except.ok db2 => (Except.ok (), db2)

/-! ## Profile updates (user/schemas/user.py UpdateUserProfileSchema,
user/repositories/user.py UserRepository.update_object) -/

/-- UpdateUserProfileSchema: every field optional, each paired with its
membership in the pydantic fields-set (what model_dump with
exclude_unset reports). The schema declares phone_verified nowhere. -/
structure UpdateUserProfileSchema where
  phone : Option String := none
  phone_set : Bool := false
  first_name : Option String := none
  first_name_set : Bool := false
  last_name : Option String := none
  last_name_set : Bool := false
  patronymic : Option String := none
  patronymic_set : Bool := false
  birthday : Option String := none
  birthday_set : Bool := false
  email : Option String := none
  email_set : Bool := false
  about : Option String := none
  about_set : Bool := false
  email_verified : Option Bool := none
  email_verified_set : Bool := false
deriving Repr, DecidableEq

/-- The setattr loop of CRUDRepository.update_object: copy every field
of the exclude_unset dump onto the row. Assigning None to the
non-nullable email_verified column could never commit, so a set
email_verified carries a boolean in every committed update. -/
def apply_profile_update (u : UserProfile)
    (d : UpdateUserProfileSchema) : UserProfile :=
  { u with
      phone := if d.phone_set then d.phone else u.phone,
      first_name := if d.first_name_set then d.first_name else u.first_name,
      last_name := if d.last_name_set then d.last_name else u.last_name,
      patronymic := if d.patronymic_set then d.patronymic else u.patronymic,
      birthday := if d.birthday_set then d.birthday else u.birthday,
      email := if d.email_set then d.email else u.email,
      about := if d.about_set then d.about else u.about,
      email_verified :=
        if d.email_verified_set then
          d.email_verified.getD u.email_verified
        else u.email_verified }

/-- UserRepository.update_object composed with CRUDService error
handling. When the phone key is in the exclude_unset dump the source
assigns update_data.phone_verified, a field UpdateUserProfileSchema
does not declare, and pydantic raises ValueError before any row is
touched. When the email key is in the dump the assignment to the
declared email_verified field succeeds and marks it set. -/
def user_update_object (db : List UserProfile) (object_id : Nat)
    (update_data : UpdateUserProfileSchema) :
    Except PyExc (List UserProfile) :=
  if update_data.phone_set then
    Except.error (PyExc.valueError
      "UpdateUserProfileSchema object has no field phone_verified")
  else
    let ud :=
      if update_data.email_set then
        { update_data with email_verified := some false,
                           email_verified_set := true }
      else update_data
    match db.find? (fun u => u.id == object_id) with
    | none => Except.error (PyExc.objectNotFound object_id)
    | some _ =>
        Except.ok (db.map (fun u =>
          if u.id == object_id then apply_profile_update u ud else u))

/-! ## Concrete instances used by the witness statements -/

/-- A concrete argon2 stand-in used only by concrete instances. -/
def witnessHash (s : String) : String :=
  String.append "argon:" s

/-- The verifier matching witnessHash. -/
def witnessVerify (plain hashed : String) : Bool :=
  hashed == witnessHash plain

/-- A sample active user row. -/
def sampleUser : UserProfile :=
  { id := 1, phone := some "+79181111111",
    hashed_password := some (witnessHash "OldPw1!x"), is_active := true,
    phone_verified := true, email := some "user@example.com",
    email_verified := true, first_name := some "Ann",
    last_name := some "Lee", patronymic := none, birthday := none,
    about := none }

/-- The sample user without a first name. -/
def sampleUserNoName : UserProfile :=
  { sampleUser with first_name := none }

/-- Provider-side profile data supplying a first name. -/
def sampleProviderData : OAuthProfileData :=
  { first_name := some "Anna", last_name := some "", birthday := none,
    email := some "anna@example.com" }

/-- A cache holding one recovery session bound to user 1 with the
hashed code of 123456. -/
def witnessCache : CacheState :=
  { sessions := [("rid1", { value := "1", ttl := 180 })],
    codes := [("rid1", { value := witnessHash "123456", ttl := 180 })],
    tokens := [] }

/-- The empty cache. -/
def emptyCache : CacheState :=
  { sessions := [], codes := [], tokens := [] }

/-- A cache holding one reset token bound to user 1. -/
def witnessTokenCache : CacheState :=
  { sessions := [], codes := [],
    tokens := [("tok1", { value := "1", ttl := 180 })] }

/-! ## Theorems -/

theorem cacheGet_delete_self (l : List (String × CacheEntry))
    (k : String) : cacheGet (cacheDelete l k) k = none := by
  have h : (cacheDelete l k).find? (fun kv => kv.1 == k) = none := by
    rw [List.find?_eq_none]
    intro x hx
    have hq := (List.mem_filter.mp hx).2
    simp only [bne_iff_ne, ne_eq] at hq
    simp [hq]
  simp [cacheGet, h]

theorem cacheGetTtl_set_self (l : List (String × CacheEntry))
    (k v : String) (ex : Nat) :
    cacheGetTtl (cacheSet l k v ex) k = some ex := by
  simp [cacheGetTtl, cacheSet]

/-- Claim C1: the spec says login fails with UserNotFound when no
active user matches the phone, in particular when get_by_phone returns
no user at all. On an empty store get_by_phone returns none, and login
then dereferences the missing row before its None check: the code
raises AttributeError, not UserNotFoundError, contradicting the Raises
clause of its own docstring. -/
theorem login_unknown_phone_raises_attribute_error :
    get_by_phone [] "+70000000000" = none
    ∧ login [] (fun _ _ => false) "+70000000000" "any-password"
        = Except.error (PyExc.attributeError
            "NoneType object has no attribute hashed_password") :=
  ⟨rfl, rfl⟩

/-- Claim C2: the spec says normalize_phone maps every supported raw
variant, in particular the plus-prefixed international format, to the
canonical form. The trunk and bare-local variants do normalize, but
every input whose first non-blank character is a plus returns none,
because the cleaned string still starts with the plus when the code
tests startswith for the country digit; this contradicts the doctest
examples in the function docstring. -/
theorem normalize_phone_plus_prefix_returns_none :
    normalize_phone "+7 (918) 111-11-11" = none
    ∧ normalize_phone "+79181111111" = none
    ∧ normalize_phone "89181111111" = some "+79181111111"
    ∧ normalize_phone "9181111111" = some "+79181111111" := by
  refine ⟨rfl, rfl, ?_, ?_⟩ <;> rfl

theorem get_code_after_success (c : CacheState) (rid fresh : String)
    (uid : Nat) :
    get_recovery_password_code
      (set_recovery_token
        (delete_recovery_session (delete_recovery_password_code c rid) rid)
        fresh uid) rid = none := by
  simp [get_recovery_password_code, set_recovery_token,
    delete_recovery_session, delete_recovery_password_code,
    cacheGet_delete_self]

theorem get_session_after_success (c : CacheState) (rid fresh : String)
    (uid : Nat) :
    get_recovery_session_user
      (set_recovery_token
        (delete_recovery_session (delete_recovery_password_code c rid) rid)
        fresh uid) rid = none := by
  simp [get_recovery_session_user, set_recovery_token,
    delete_recovery_session, delete_recovery_password_code,
    cacheGet_delete_self]

/-- Claim C3: the recovery code is single-use. When check_recovery_code
succeeds, the resulting cache has the hashed-code and session entries
for that recovery_id deleted, so a repeated call with the same
recovery_id and any code fails with the one generic invalid-or-expired
error; every failure of the operation carries exactly that error, and
it is raised whenever the hashed code or bound user id is absent or the
code does not verify. -/
theorem recovery_code_single_use (c : CacheState)
    (verify : String → String → Bool) (fresh rid : String)
    (input_code : Nat) :
    (∀ tok c2,
        check_recovery_code c verify fresh rid input_code
          = Except.ok (tok, c2) →
        get_recovery_password_code c2 rid = none
        ∧ get_recovery_session_user c2 rid = none
        ∧ ∀ fresh2 code2,
            check_recovery_code c2 verify fresh2 rid code2
              = Except.error invalidOrExpiredCodeError)
    ∧ (∀ e,
        check_recovery_code c verify fresh rid input_code
          = Except.error e →
        e = invalidOrExpiredCodeError)
    ∧ (get_recovery_password_code c rid = none
        ∨ get_recovery_session_user c rid = none →
        check_recovery_code c verify fresh rid input_code
          = Except.error invalidOrExpiredCodeError)
    ∧ (∀ hc, get_recovery_password_code c rid = some hc →
        verify (toString input_code) hc = false →
        check_recovery_code c verify fresh rid input_code
          = Except.error invalidOrExpiredCodeError) := by
  have hfail : ∀ c2 : CacheState,
      get_recovery_password_code c2 rid = none →
      ∀ f2 code2, check_recovery_code c2 verify f2 rid code2
        = Except.error invalidOrExpiredCodeError := by
    intro c2 h f2 code2
    simp [check_recovery_code, h]
  refine ⟨?_, ?_, ?_, ?_⟩
  · intro tok c2 hok
    cases hcode : get_recovery_password_code c rid with
    | none => simp [check_recovery_code, hcode] at hok
    | some hc =>
      cases huser : get_recovery_session_user c rid with
      | none => simp [check_recovery_code, hcode, huser] at hok
      | some uid =>
        cases hv : verify (toString input_code) hc with
        | false => simp [check_recovery_code, hcode, huser, hv] at hok
        | true =>
          simp only [check_recovery_code, hcode, huser, hv] at hok
          simp only [Bool.not_true, Bool.false_eq_true, if_false,
            ite_false] at hok
          have hc2 : c2 = set_recovery_token
              (delete_recovery_session
                (delete_recovery_password_code c rid) rid) fresh uid := by
            cases hok
            rfl
          subst hc2
          refine ⟨get_code_after_success c rid fresh uid,
            get_session_after_success c rid fresh uid, ?_⟩
          intro fresh2 code2
          exact hfail _ (get_code_after_success c rid fresh uid) fresh2 code2
  · intro e herr
    cases hcode : get_recovery_password_code c rid with
    | none =>
        simp [check_recovery_code, hcode] at herr
        exact herr.symm
    | some hc =>
      cases huser : get_recovery_session_user c rid with
      | none =>
          simp [check_recovery_code, hcode, huser] at herr
          exact herr.symm
      | some uid =>
        cases hv : verify (toString input_code) hc with
        | false =>
            simp [check_recovery_code, hcode, huser, hv] at herr
            exact herr.symm
        | true => simp [check_recovery_code, hcode, huser, hv] at herr
  · intro habsent
    cases habsent with
    | inl h => simp [check_recovery_code, h]
    | inr h =>
        cases hcode : get_recovery_password_code c rid with
        | none => simp [check_recovery_code, hcode]
        | some hc => simp [check_recovery_code, hcode, h]
  · intro hc hcode hv
    cases huser : get_recovery_session_user c rid with
    | none => simp [check_recovery_code, hcode, huser]
    | some uid => simp [check_recovery_code, hcode, huser, hv]

/-- Concrete run of claim C3: on a cache holding the session and hashed
code for rid1, checking code 123456 succeeds, and the immediate
repetition with the same recovery_id and code fails with the generic
error. -/
theorem recovery_code_single_use_witness :
    check_recovery_code witnessCache witnessVerify "tok1" "rid1" 123456
      = Except.ok ("tok1",
          set_recovery_token
            (delete_recovery_session
              (delete_recovery_password_code witnessCache "rid1") "rid1")
            "tok1" 1)
    ∧ check_recovery_code
        (set_recovery_token
          (delete_recovery_session
            (delete_recovery_password_code witnessCache "rid1") "rid1")
          "tok1" 1) witnessVerify "tok2" "rid1" 123456
      = Except.error invalidOrExpiredCodeError := by
  have h := (recovery_code_single_use witnessCache witnessVerify "tok1"
    "rid1" 123456).1 "tok1"
    (set_recovery_token
      (delete_recovery_session
        (delete_recovery_password_code witnessCache "rid1") "rid1")
      "tok1" 1) (by rfl)
  exact ⟨by rfl, h.2.2 "tok2" 123456⟩

theorem get_token_after_delete (c : CacheState) (token : String) :
    get_recovery_token (delete_recovery_token c token) token = none := by
  simp [get_recovery_token, delete_recovery_token, cacheGet_delete_self]

/-- Claim C4: the reset token is single-use. When
reset_password_via_token succeeds, the token entry has been deleted, so
a second call with the same token fails with InvalidResetToken; when
the token is absent or expired the call fails with InvalidResetToken
and leaves both the cache and the user rows, hence the stored password,
unchanged. -/
theorem reset_token_single_use (c : CacheState) (db : List UserProfile)
    (hash : String → String) (token new_password : String) :
    (∀ c2 db2,
        reset_password_via_token c db hash token new_password
          = (Except.ok (), c2, db2) →
        get_recovery_token c2 token = none
        ∧ ∀ np2, (reset_password_via_token c2 db2 hash token np2).1
            = Except.error (PyExc.app invalidResetToken))
    ∧ (get_recovery_token c token = none →
        reset_password_via_token c db hash token new_password
          = (Except.error (PyExc.app invalidResetToken), c, db)) := by
  refine ⟨?_, ?_⟩
  · intro c2 db2 hok
    cases htok : get_recovery_token c token with
    | none => simp [reset_password_via_token, htok] at hok
    | some uid =>
        cases hupd : update_user_password db uid hash new_password with
        | error e => simp [reset_password_via_token, htok, hupd] at hok
        | ok dbn =>
            simp only [reset_password_via_token, htok, hupd,
              Prod.mk.injEq, true_and] at hok
            obtain ⟨hc2, hdb2⟩ := hok
            subst hc2
            refine ⟨get_token_after_delete c token, ?_⟩
            intro np2
            simp [reset_password_via_token, get_token_after_delete]
  · intro hnone
    simp [reset_password_via_token, hnone]

/-- Concrete run of claim C4: resetting with the stored token succeeds
and deletes the token, and the immediate second call with the same
token fails with InvalidResetToken. -/
theorem reset_token_single_use_witness :
    reset_password_via_token witnessTokenCache [ sampleUser ] witnessHash
        "tok1" "NewPw1!x"
      = (Except.ok (), delete_recovery_token witnessTokenCache "tok1",
         [ { sampleUser with
               hashed_password := some (witnessHash "NewPw1!x") } ])
    ∧ (reset_password_via_token
        (delete_recovery_token witnessTokenCache "tok1")
        [ { sampleUser with
              hashed_password := some (witnessHash "NewPw1!x") } ]
        witnessHash "tok1" "NewPw2!x").1
      = Except.error (PyExc.app invalidResetToken) := by
  have h := (reset_token_single_use witnessTokenCache [ sampleUser ]
      witnessHash "tok1" "NewPw1!x").1
    (delete_recovery_token witnessTokenCache "tok1")
    [ { sampleUser with hashed_password := some (witnessHash "NewPw1!x") } ]
    (by rfl)
  exact ⟨by rfl, h.2 "NewPw2!x"⟩

/-- Claim C5: the recovery request returns exactly the recovery_id it
drew, so the response is identical for any two user stores once the
randomness is fixed; when no user matches the phone the cache and the
outbox are left untouched, and a later check_recovery_code with that
fresh recovery_id and any code fails with the generic error. -/
theorem recovery_request_uniform_response (store store2 : List UserProfile)
    (hash : String → String) (rid : String) (code : Nat) (c : CacheState)
    (outbox : List SentEmail) (user_phone : String) :
    (send_recovery_code_via_email store hash rid code c outbox
        user_phone).1 = rid
    ∧ (send_recovery_code_via_email store hash rid code c outbox
          user_phone).1
        = (send_recovery_code_via_email store2 hash rid code c outbox
            user_phone).1
    ∧ (get_by_phone store user_phone = none →
        send_recovery_code_via_email store hash rid code c outbox
            user_phone
          = (rid, c, outbox))
    ∧ (get_by_phone store user_phone = none →
        get_recovery_password_code c rid = none →
        ∀ (verify : String → String → Bool) (fresh2 : String)
          (code2 : Nat),
          check_recovery_code
            (send_recovery_code_via_email store hash rid code c outbox
              user_phone).2.1 verify fresh2 rid code2
            = Except.error invalidOrExpiredCodeError) := by
  have hfst : ∀ s : List UserProfile,
      (send_recovery_code_via_email s hash rid code c outbox
        user_phone).1 = rid := by
    intro s
    cases h : get_by_phone s user_phone <;>
      simp [send_recovery_code_via_email, h]
  refine ⟨hfst store, (hfst store).trans (hfst store2).symm, ?_, ?_⟩
  · intro hnone
    simp [send_recovery_code_via_email, hnone]
  · intro hnone hfresh verify fresh2 code2
    have hstate : (send_recovery_code_via_email store hash rid code c
        outbox user_phone).2.1 = c := by
      simp [send_recovery_code_via_email, hnone]
    rw [hstate]
    simp [check_recovery_code, hfresh]

/-- Concrete run of claim C5: requesting recovery for a phone no user
has returns the drawn recovery_id with cache and outbox untouched, and
checking any code under that recovery_id fails with the generic
error. -/
theorem recovery_request_uniform_response_witness :
    send_recovery_code_via_email [ sampleUser ] witnessHash "ridX" 654321
        emptyCache [] "+70000000000"
      = ("ridX", emptyCache, [])
    ∧ check_recovery_code emptyCache witnessVerify "tokX" "ridX" 654321
      = Except.error invalidOrExpiredCodeError := by
  have h := recovery_request_uniform_response [ sampleUser ] []
    witnessHash "ridX" 654321 emptyCache [] "+70000000000"
  exact ⟨h.2.2.1 (by rfl),
    h.2.2.2 (by rfl) (by rfl) witnessVerify "tokX" 654321⟩

/-- Claim C10: the recovery session, the hashed recovery code and the
reset token are each written with the single shared
RECOVERY_PASSWORD_CODE_LIFESPAN setting as their TTL, so the reset
token lives exactly as long as the code entries did. -/
theorem recovery_entries_share_ttl (c : CacheState)
    (rid hashed_code tok : String) (uid uid2 : Nat) :
    cacheGetTtl (set_recovery_session c rid uid).sessions rid
      = some RECOVERY_PASSWORD_CODE_LIFESPAN
    ∧ cacheGetTtl (set_recovery_password_code c rid hashed_code).codes rid
      = some RECOVERY_PASSWORD_CODE_LIFESPAN
    ∧ cacheGetTtl (set_recovery_token c tok uid2).tokens tok
      = some RECOVERY_PASSWORD_CODE_LIFESPAN := by
  refine ⟨?_, ?_, ?_⟩ <;>
    simp [set_recovery_session, set_recovery_password_code,
      set_recovery_token, cacheGetTtl_set_self]

/-- Claim C6: OAuth profile enrichment is one-way. For each of
first_name, last_name, birthday and email: a non-null local value is
kept exactly as it was (in particular every non-empty local value), a
null local value is filled from the provider only when the provider
value is neither null nor empty, and stays null otherwise. -/
theorem oauth_enrichment_one_way (user : UserProfile)
    (p : OAuthProfileData) :
    ((user.first_name ≠ none →
        (enrich_profile user p).first_name = user.first_name)
      ∧ (user.first_name = none → providerHasData p.first_name = true →
          (enrich_profile user p).first_name = p.first_name)
      ∧ (user.first_name = none → providerHasData p.first_name = false →
          (enrich_profile user p).first_name = none))
    ∧ ((user.last_name ≠ none →
        (enrich_profile user p).last_name = user.last_name)
      ∧ (user.last_name = none → providerHasData p.last_name = true →
          (enrich_profile user p).last_name = p.last_name)
      ∧ (user.last_name = none → providerHasData p.last_name = false →
          (enrich_profile user p).last_name = none))
    ∧ ((user.birthday ≠ none →
        (enrich_profile user p).birthday = user.birthday)
      ∧ (user.birthday = none → providerHasData p.birthday = true →
          (enrich_profile user p).birthday = p.birthday)
      ∧ (user.birthday = none → providerHasData p.birthday = false →
          (enrich_profile user p).birthday = none))
    ∧ ((user.email ≠ none →
        (enrich_profile user p).email = user.email)
      ∧ (user.email = none → providerHasData p.email = true →
          (enrich_profile user p).email = p.email)
      ∧ (user.email = none → providerHasData p.email = false →
          (enrich_profile user p).email = none)) := by
  refine ⟨⟨?_, ?_, ?_⟩, ⟨?_, ?_, ?_⟩, ⟨?_, ?_, ?_⟩, ⟨?_, ?_, ?_⟩⟩
  · intro h; simp [enrich_profile, enrichField, h]
  · intro h1 h2; simp [enrich_profile, enrichField, h1, h2]
  · intro h1 h2; simp [enrich_profile, enrichField, h1, h2]
  · intro h; simp [enrich_profile, enrichField, h]
  · intro h1 h2; simp [enrich_profile, enrichField, h1, h2]
  · intro h1 h2; simp [enrich_profile, enrichField, h1, h2]
  · intro h; simp [enrich_profile, enrichField, h]
  · intro h1 h2; simp [enrich_profile, enrichField, h1, h2]
  · intro h1 h2; simp [enrich_profile, enrichField, h1, h2]
  · intro h; simp [enrich_profile, enrichField, h]
  · intro h1 h2; simp [enrich_profile, enrichField, h1, h2]
  · intro h1 h2; simp [enrich_profile, enrichField, h1, h2]

/-- Concrete run of claim C6: a local first_name Ann survives a
provider first_name Anna, and a null local first_name becomes Anna. -/
theorem oauth_enrichment_one_way_witness :
    (enrich_profile sampleUser sampleProviderData).first_name = some "Ann"
    ∧ (enrich_profile sampleUserNoName sampleProviderData).first_name
        = some "Anna" := by
  refine ⟨?_, ?_⟩
  · exact (oauth_enrichment_one_way sampleUser sampleProviderData).1.1
      (by decide)
  · exact (oauth_enrichment_one_way sampleUserNoName
      sampleProviderData).1.2.1 (by rfl) (by rfl)

/-- Claim C7 counterexample: with new_password equal to old_password
the schema raises PasswordVerifyError carrying HTTP status 401 and
error_type InvalidCredentials, the same error class and type as a
wrong old password, not a distinct 422 validation error. -/
theorem change_password_must_differ_is_invalid_credentials :
    ChangePasswordSchema_validate "Aa1!aaaa" "Aa1!aaaa"
      = Except.error (passwordVerifyError
          (some "New password must be different from the old one"))
    ∧ (passwordVerifyError
        (some "New password must be different from the old one")).status_code
        = 401
    ∧ (passwordVerifyError
        (some "New password must be different from the old one")).error_type
        = (passwordVerifyError
            (some "Current password is incorrect.")).error_type :=
  ⟨by rfl, by rfl, by rfl⟩

/-- Claim C7 amended: for every policy-passing password, calling
change_password with new_password equal to old_password fails during
schema validation, before any user lookup, hashing or persistence, with
the PasswordVerifyError whose detail says the new password must differ;
it carries status 401 and error_type InvalidCredentials like the
wrong-old-password error, and the user rows are unchanged. -/
theorem change_password_same_password_rejected (db : List UserProfile)
    (verify : String → String → Bool) (hash : String → String)
    (uid : Nat) (pw : String)
    (hpolicy : PasswordPolicy_validate pw = Except.ok ()) :
    change_password db verify hash uid pw pw
      = (Except.error (PyExc.app (passwordVerifyError
          (some "New password must be different from the old one"))),
         db) := by
  simp [change_password, ChangePasswordSchema_validate,
    SetPasswordSchema_validate, hpolicy]

/-- Concrete run of claim C7: the policy-passing password Aa1!aaaa
submitted as both old and new is rejected with the must-differ
PasswordVerifyError and the store is untouched. -/
theorem change_password_same_password_rejected_witness :
    PasswordPolicy_validate "Aa1!aaaa" = Except.ok ()
    ∧ change_password [ sampleUser ] witnessVerify witnessHash 1
        "Aa1!aaaa" "Aa1!aaaa"
      = (Except.error (PyExc.app (passwordVerifyError
          (some "New password must be different from the old one"))),
         [ sampleUser ]) :=
  ⟨by rfl, change_password_same_password_rejected [ sampleUser ]
    witnessVerify witnessHash 1 "Aa1!aaaa" (by rfl)⟩

/-- Claim C8 counterexample: the four-character password Aa1! is
accepted by the validation that set_password, change_password and the
recovery-completion schema run, although it is shorter than
MIN_PASSWORD_LENGTH: no minimum-length rule guards those paths. -/
theorem set_password_schema_accepts_short_password :
    SetPasswordSchema_validate "Aa1!" = Except.ok ()
    ∧ "Aa1!".length < MIN_PASSWORD_LENGTH :=
  ⟨by rfl, by decide⟩

/-- Claim C8 amended: the shared policy checked before hashing on all
four paths consists exactly of the four character classes, each failure
naming the violated rule; only registration additionally enforces the
minimum length, through the pydantic field constraint. -/
theorem password_policy_characterization (p : String) :
    (SetPasswordSchema_validate p = Except.ok ()
       ↔ (p.data.any Char.isLower = true ∧ p.data.any Char.isUpper = true
          ∧ p.data.any Char.isDigit = true
          ∧ p.data.any isSpecialChar = true))
    ∧ (p.length < MIN_PASSWORD_LENGTH →
        CreateUserProfileSchema_validate_password (some p)
          = Except.error (SchemaError.validation
              "String should have at least 8 characters"))
    ∧ (p.data.any Char.isLower = false →
        SetPasswordSchema_validate p
          = Except.error (passwordVerifyError
              (some "Password must contain at least one lowercase letter"))) := by
  refine ⟨?_, ?_, ?_⟩
  · cases hl : p.data.any Char.isLower <;>
    cases hu : p.data.any Char.isUpper <;>
    cases hd : p.data.any Char.isDigit <;>
    cases hs : p.data.any isSpecialChar <;>
      simp [SetPasswordSchema_validate, PasswordPolicy_validate,
        hl, hu, hd, hs]
  · intro h
    simp [CreateUserProfileSchema_validate_password, h]
  · intro h
    simp [SetPasswordSchema_validate, PasswordPolicy_validate, h]

/-- Concrete run of claim C8: A1! is under the minimum length, so
registration rejects it with the 422 length message, while the
schema used by the other paths rejects it only for the missing
lowercase letter. -/
theorem password_policy_characterization_witness :
    ("A1!".length < MIN_PASSWORD_LENGTH
      ∧ CreateUserProfileSchema_validate_password (some "A1!")
          = Except.error (SchemaError.validation
              "String should have at least 8 characters"))
    ∧ ("A1!".data.any Char.isLower = false
      ∧ SetPasswordSchema_validate "A1!"
          = Except.error (passwordVerifyError
              (some "Password must contain at least one lowercase letter"))) := by
  have h := password_policy_characterization "A1!"
  exact ⟨⟨by decide, h.2.1 (by decide)⟩, ⟨by rfl, h.2.2 (by rfl)⟩⟩

/-- Claim C9: the spec says mutating phone resets phone_verified and
mutating email resets email_verified. The email half holds, but any
payload that sets phone makes UserRepository.update_object assign
phone_verified on UpdateUserProfileSchema, which declares no such
field: pydantic raises ValueError, no row is updated at all and
phone_verified keeps its prior value, contradicting the Note of the
method docstring. -/
theorem update_phone_payload_raises_value_error :
    user_update_object [ sampleUser ] 1
        { phone := some "+79181111112", phone_set := true }
      = Except.error (PyExc.valueError
          "UpdateUserProfileSchema object has no field phone_verified")
    ∧ user_update_object [ sampleUser ] 1
        { email := some "new@example.com", email_set := true }
      = Except.ok
          [ { sampleUser with
                email := some "new@example.com"
                email_verified := false } ] :=
  ⟨rfl, by rfl⟩

end Pomodoro
